import Mathlib

/-!
Verification of the mssql_dataframe core: the conversion-rules registry
(`core/conversion_rules.py`), the schema/coercion pipeline and precision
adjusters (`core/conversion.py`), and the merge-statement builder
(`core/write/merge.py`), shallowly embedded in Lean 4.

Conventions of the embedding:
* pandas `Timedelta` values (SQL `time`) are total nanosecond counts (`Int`);
  their component decomposition is only taken on non-negative values, after
  the range check, exactly as in the source.
* pandas dtypes are the strings pandas uses (`"object"`, `"Int64"`, ...).
* Python `round` (banker's rounding) on `component / 100` is modelled by
  integer round-half-to-even: for components 0-999 every tie `k + 0.5` is a
  dyadic rational, exactly representable in the source's float arithmetic,
  and non-ties are far from midpoints, so the integer model is exact.
-/

/-- A `min_value`/`max_value` cell of the conversion-rules registry.  The
registry stores per-category values: Python booleans for `bit`, ints for the
integer types and the string-length bounds, `±(1.79 ** 308)` floats for
`float`, `pd.Timedelta` bounds for `time` (stored here as total
nanoseconds), and `pd.Timestamp` bounds for `date`/`datetime2` (kept
symbolic: no claim evaluates them). -/
inductive SqlValue where
  | pybool (b : Bool)
  | int (n : Int)
  | floatBound (neg : Bool)
  | timedeltaNs (ns : Int)
  | timestampMin
  | timestampMax
  | dateMin
  | dateMax
  deriving DecidableEq

/-- One record of `conversion_rules.rules` (src/mssql_dataframe/core/conversion_rules.py,
lines 5-118).  `odbc_type` holds the pyodbc constant's numeric value. -/
structure Rule where
  sql_type : String
  sql_category : String
  min_value : SqlValue
  max_value : SqlValue
  pandas_type : String
  odbc_type : Int
  odbc_size : Nat
  odbc_precision : Nat
  deriving DecidableEq

/-- The conversion-rules registry, record for record from
src/mssql_dataframe/core/conversion_rules.py.  pyodbc constants:
SQL_BIT = -7, SQL_TINYINT = -6, SQL_SMALLINT = 5, SQL_INTEGER = 4,
SQL_BIGINT = -5, SQL_FLOAT = 6, SQL_SS_TIME2 = -154, SQL_TYPE_DATE = 91,
SQL_TYPE_TIMESTAMP = 93, SQL_VARCHAR = 12, SQL_WVARCHAR = -9.
The `time` bounds are `pd.Timedelta "00:00:00.0000000"` = 0 ns and
`pd.Timedelta "23:59:59.9999999"` = 86399999999900 ns. -/
def rules : List Rule := [
  { sql_type := "bit", sql_category := "boolean",
    min_value := .pybool false, max_value := .pybool true,
    pandas_type := "boolean", odbc_type := -7, odbc_size := 1, odbc_precision := 0 },
  { sql_type := "tinyint", sql_category := "exact numeric",
    min_value := .int 0, max_value := .int 255,
    pandas_type := "UInt8", odbc_type := -6, odbc_size := 1, odbc_precision := 0 },
  { sql_type := "smallint", sql_category := "exact numeric",
    min_value := .int (-(2 ^ 15)), max_value := .int (2 ^ 15 - 1),
    pandas_type := "Int16", odbc_type := 5, odbc_size := 2, odbc_precision := 0 },
  { sql_type := "int", sql_category := "exact numeric",
    min_value := .int (-(2 ^ 31)), max_value := .int (2 ^ 31 - 1),
    pandas_type := "Int32", odbc_type := 4, odbc_size := 4, odbc_precision := 0 },
  { sql_type := "bigint", sql_category := "exact numeric",
    min_value := .int (-(2 ^ 63)), max_value := .int (2 ^ 63 - 1),
    pandas_type := "Int64", odbc_type := -5, odbc_size := 8, odbc_precision := 0 },
  { sql_type := "float", sql_category := "approximate numeric",
    min_value := .floatBound true, max_value := .floatBound false,
    pandas_type := "float64", odbc_type := 6, odbc_size := 8, odbc_precision := 53 },
  { sql_type := "time", sql_category := "date time",
    min_value := .timedeltaNs 0, max_value := .timedeltaNs 86399999999900,
    pandas_type := "timedelta64[ns]", odbc_type := -154, odbc_size := 16, odbc_precision := 7 },
  { sql_type := "date", sql_category := "date time",
    min_value := .dateMin, max_value := .dateMax,
    pandas_type := "datetime64[ns]", odbc_type := 91, odbc_size := 10, odbc_precision := 0 },
  { sql_type := "datetime2", sql_category := "date time",
    min_value := .timestampMin, max_value := .timestampMax,
    pandas_type := "datetime64[ns]", odbc_type := 93, odbc_size := 27, odbc_precision := 7 },
  { sql_type := "varchar", sql_category := "character string",
    min_value := .int 1, max_value := .int 0,
    pandas_type := "string", odbc_type := 12, odbc_size := 0, odbc_precision := 0 },
  { sql_type := "nvarchar", sql_category := "character string",
    min_value := .int 1, max_value := .int 0,
    pandas_type := "string", odbc_type := -9, odbc_size := 0, odbc_precision := 0 }]

/-- TypeRegistry lookup: the (unique-keyed) row of `rules` for a given
`sql_type`, `none` when no conversion is defined.  This is also the
semantics of the `how="left"` join on `sql_type` in `get_schema`
(conversion.py line 128): each schema row receives the matching registry
row or missing values. -/
def lookupRule (sql_type : String) : Option Rule :=
  rules.find? (fun r => r.sql_type == sql_type)

/-- Host-level dtype of one column after `convert_largest_sql_category`
(src/mssql_dataframe/core/conversion.py, lines 199-238).  The source
selects, among the dataframe's `object`-dtype columns, those whose schema
`sql_category` equals each of the literal strings below and applies the
corresponding widening cast; an `object` column matching no filter is left
untouched.  The `datetimeoffset` branch applies `pd.Timestamp` element-wise,
which leaves the column's dtype `object`. -/
def convert_largest_sql_category (dtype sql_category sql_type : String) : String :=
  if dtype != "object" then dtype
  else if sql_category == "exact_whole_numeric" then "Int64"
  else if sql_category == "approximate_decimal_numeric" then "float64"
  else if sql_category == "date_time" && sql_type != "datetimeoffset" then "datetime64[ns]"
  else if sql_category == "date_time" && sql_type == "datetimeoffset" then "object"
  else if sql_category == "character string" then "string"
  else dtype

/-- C4: the claim says the type registry contains, at minimum, boolean,
8/16/32/64-bit exact integers, double precision, time-of-day, date, a
timezone-naive 7-digit timestamp, a timezone-aware timestamp, and both
fixed- and variable-width character types in unicode and non-unicode
flavors.  The registry does carry the first nine, but it has NO entry for a
timezone-aware timestamp (`datetimeoffset`), none for the fixed-width
character types (`char`, `nchar`), and none for the low-precision timestamp
(`datetime`) - even though conversion.py ships `prepare_datetimeoffset`,
`prepare_datetime` and a `char` unicode check that can only ever run for
columns of those types, which `get_schema` would reject with
UndefinedConversionRule.  This theorem evaluates the registry at the
present and at the missing type names. -/
theorem registry_missing_required_entries :
    ((lookupRule "bit").map Rule.sql_category = some "boolean") ∧
    ((lookupRule "tinyint").map Rule.pandas_type = some "UInt8") ∧
    ((lookupRule "smallint").map Rule.pandas_type = some "Int16") ∧
    ((lookupRule "int").map Rule.pandas_type = some "Int32") ∧
    ((lookupRule "bigint").map Rule.pandas_type = some "Int64") ∧
    ((lookupRule "float").map Rule.pandas_type = some "float64") ∧
    ((lookupRule "time").map Rule.odbc_precision = some 7) ∧
    ((lookupRule "date").isSome = true) ∧
    ((lookupRule "datetime2").map Rule.odbc_precision = some 7) ∧
    ((lookupRule "varchar").isSome = true) ∧
    ((lookupRule "nvarchar").isSome = true) ∧
    lookupRule "datetimeoffset" = none ∧
    lookupRule "char" = none ∧
    lookupRule "nchar" = none ∧
    lookupRule "datetime" = none := by
  decide

/-- C2: the claim says every `object`-dtype column is widened to the largest
host representation of its schema category before the size check.  The
registry's category strings are "exact numeric", "approximate numeric" and
"date time" (conversion_rules.py), but `convert_largest_sql_category`
filters on "exact_whole_numeric", "approximate_decimal_numeric" and
"date_time" (conversion.py lines 205, 213, 218), which match no registry
row: object columns of those categories are never widened, contradicting
the function's own comment ("avoids downcast such as UInt8 value of 10000
to 16").  Only the "character string" filter matches its registry spelling. -/
theorem convert_largest_object_numeric_not_widened :
    ((lookupRule "tinyint").map Rule.sql_category = some "exact numeric") ∧
    convert_largest_sql_category "object" "exact numeric" "tinyint" = "object" ∧
    ((lookupRule "float").map Rule.sql_category = some "approximate numeric") ∧
    convert_largest_sql_category "object" "approximate numeric" "float" = "object" ∧
    ((lookupRule "datetime2").map Rule.sql_category = some "date time") ∧
    convert_largest_sql_category "object" "date time" "datetime2" = "object" ∧
    ((lookupRule "varchar").map Rule.sql_category = some "character string") ∧
    convert_largest_sql_category "object" "character string" "varchar" = "string" ∧
    convert_largest_sql_category "object" "exact_whole_numeric" "tinyint" = "Int64" := by
  decide

/-- Nanoseconds in one day: the SQL `time` upper limit `pd.Timedelta(days=1)`. -/
def nsPerDay : Int := 86400000000000

/-- The `components` named tuple of a non-negative `pd.Timedelta`, fields
(days, hours, minutes, seconds, milliseconds, microseconds, nanoseconds),
taken of a total-nanosecond count. -/
structure TdComponents where
  days : Nat
  hours : Nat
  minutes : Nat
  seconds : Nat
  milliseconds : Nat
  microseconds : Nat
  nanoseconds : Nat
  deriving DecidableEq

def tdComponents (v : Nat) : TdComponents :=
  { days := v / 86400000000000
    hours := v / 3600000000000 % 24
    minutes := v / 60000000000 % 60
    seconds := v / 1000000000 % 60
    milliseconds := v / 1000000 % 1000
    microseconds := v / 1000 % 1000
    nanoseconds := v % 1000 }

/-- Python's `round(ns / 100)` for a component `ns` in 0-999: banker's
rounding (round half to even).  Each tie `ns = 100k + 50` makes `ns / 100`
the dyadic rational `k + 0.5`, exactly representable in the source's float
arithmetic, and every non-tie is at least 0.01 away from a midpoint, so
this integer model reproduces the source exactly. -/
def pyRoundDiv100 (ns : Nat) : Nat :=
  let q := ns / 100
  if ns % 100 < 50 then q
  else if ns % 100 > 50 then q + 1
  else if q % 2 = 0 then q else q + 1

/-- One `time` value rebuilt by `prepare_time`'s rounding lambda
(conversion.py lines 382-393): `pd.Timedelta` of the value's components
days/hours/minutes/seconds/microseconds plus the nanosecond component
rounded to a multiple of 100.  The source passes NO `milliseconds=`
argument to the constructor, so the milliseconds component of the original
value is dropped from the rebuilt one. -/
def prepare_time_round (v : Nat) : Nat :=
  let c := tdComponents v
  (((c.days * 24 + c.hours) * 60 + c.minutes) * 60 + c.seconds) * 1000000000
    + c.microseconds * 1000 + pyRoundDiv100 c.nanoseconds * 100

/-- The error `prepare_time` raises for a value outside the SQL `time`
range (a plain ValueError in the source, the spec's `OutOfRange` kind). -/
inductive TimeError where
  | OutOfRange
  deriving DecidableEq

/-- Result of a precision adjuster on one column: the prepared (wire-bound)
copy and the caller-visible dataframe column as they stand after the
numeric adjustments, before the prepared copy's textual rendering, plus
whether a precision-loss warning was logged. -/
structure PreparedColumn (α : Type) where
  prepped : List α
  dataframe : List α
  warned : Bool
  deriving DecidableEq

/-- `prepare_time` on one `time` column (conversion.py lines 358-402),
values as total nanoseconds.  First the range check: any value `≥ 1 day` or
`< 0` raises (lines 362-370).  Then the column is flagged when any value's
nanosecond component is not a multiple of 100 (line 373); a flagged column
is warned about and every value is replaced by `prepare_time_round` in BOTH
`dataframe` and `prepped` (lines 381-395).  The final `astype(str)` /
`.str[7:23]` rendering of `prepped` (lines 396-400) is not modelled; it
touches only the prepped copy. -/
def prepare_time (col : List Int) : Except TimeError (PreparedColumn Int) :=
  if col.any (fun v => decide (v ≥ nsPerDay) || decide (v < 0)) then
    .error .OutOfRange
  else if col.any (fun v => (tdComponents v.toNat).nanoseconds % 100 > 0) then
    .ok { prepped := col.map (fun v => (prepare_time_round v.toNat : Int)),
          dataframe := col.map (fun v => (prepare_time_round v.toNat : Int)),
          warned := true }
  else
    .ok { prepped := col, dataframe := col, warned := false }

deriving instance DecidableEq for Except

/-- Round-half-even of a rational to `digits` decimal places: Python's
`round(x, digits)` as `prepare_numeric` applies it.  (The source rounds
Python floats; ties and representation noise of binary floats are outside
this model, which no claim here depends on.) -/
def pyRoundDigits (digits : Nat) (q : ℚ) : ℚ :=
  let scale : ℚ := (10 : ℚ) ^ digits
  let x := q * scale
  let fl : Int := Int.floor x
  let frac := x - fl
  let r : Int :=
    if frac < 1 / 2 then fl
    else if frac > 1 / 2 then fl + 1
    else if fl % 2 = 0 then fl else fl + 1
  (r : ℚ) / scale

/-- `prepare_numeric` on one `numeric`/`decimal` column (conversion.py
lines 544-561): `prepped` gets the values rounded to the schema's
`decimal_digits`; a warning is logged when rounding changed anything; and
line 559 (`dataframe[col] = prepped[col]`) writes the rounded column back
into the caller-visible dataframe.  Null handling (lines 548-549) is not
modelled. -/
def prepare_numeric (decimal_digits : Nat) (col : List ℚ) : PreparedColumn ℚ :=
  let rounded := col.map (pyRoundDigits decimal_digits)
  { prepped := rounded, dataframe := rounded, warned := decide (¬ rounded = col) }

/-- C8: for every time column, preparation fails with the OutOfRange error
kind if any value is `≥ 1 day` (24:00:00) or negative, before any statement
is executed (`prepare_values` runs strictly before `executemany` in
`insert_values`, conversion.py lines 795-817, and the raise is the first
statement of `prepare_time`); every column of values within
00:00:00.0000000-23:59:59.9999999 passes the check. -/
theorem time_out_of_range_check (bad good : List Int)
    (hbad : ∃ v ∈ bad, nsPerDay ≤ v ∨ v < 0)
    (hgood : ∀ v ∈ good, 0 ≤ v ∧ v < nsPerDay) :
    prepare_time bad = .error .OutOfRange ∧
      (prepare_time good).toOption.isSome = true := by
  constructor
  · obtain ⟨v, hv, h⟩ := hbad
    have hc : bad.any (fun v => decide (v ≥ nsPerDay) || decide (v < 0)) = true := by
      rw [List.any_eq_true]
      refine ⟨v, hv, ?_⟩
      simpa using h
    simp [prepare_time, hc]
  · have hc : good.any (fun v => decide (v ≥ nsPerDay) || decide (v < 0)) = false := by
      by_contra hcon
      rw [Bool.not_eq_false, List.any_eq_true] at hcon
      obtain ⟨v, hv, hvp⟩ := hcon
      obtain ⟨h0, h1⟩ := hgood v hv
      simp only [Bool.or_eq_true, decide_eq_true_eq, ge_iff_le] at hvp
      rcases hvp with h | h
      · exact absurd (lt_of_le_of_lt h h1) (lt_irrefl _)
      · exact absurd (lt_of_le_of_lt h0 h) (lt_irrefl _)
    rw [prepare_time, hc, if_neg Bool.false_ne_true]
    split <;> rfl

theorem time_out_of_range_check_witness :
    prepare_time [86400000000000, -1000000000] = .error .OutOfRange ∧
      (prepare_time [0, 86399999999900]).toOption.isSome = true :=
  time_out_of_range_check [86400000000000, -1000000000] [0, 86399999999900]
    ⟨86400000000000, by simp, Or.inl (by decide)⟩ (by decide)

/-- C7: the claim says rounding a value with a non-zero residue modulo
100 ns always yields the nearest 100-nanosecond unit (its own examples,
00:00:00.00000009 to 00:00:00.0000001 with a warning and the unchanged
aligned values, do hold).  But the rounding lambda rebuilds the Timedelta
without its `milliseconds` component (conversion.py lines 382-393 pass
days/hours/minutes/seconds/microseconds/nanoseconds only), so
00:00:00.123456789 becomes 00:00:00.000456800 instead of the nearest unit
00:00:00.123456800 that the code's own comment (line 380,
"...123456789 -> ...123456800") promises. -/
theorem prepare_time_drops_milliseconds :
    prepare_time [123456789] =
      .ok { prepped := [456800], dataframe := [456800], warned := true } ∧
    prepare_time [90] = .ok { prepped := [100], dataframe := [100], warned := true } ∧
    prepare_time [100] = .ok { prepped := [100], dataframe := [100], warned := false } ∧
    prepare_time_round 123456789 = 456800 ∧ (456800 : Nat) ≠ 123456800 := by
  decide

/-- C3 counterexample: the claim says the time adjustment alters only the
prepared wire-bound copy and leaves every value of the caller's dataframe
unchanged.  But `prepare_time` executes `dataframe[col] = rounded` (line
394) just like `prepped[col] = rounded`: for the single value
00:00:00.00000009 (90 ns) the caller-visible dataframe comes back holding
100 ns, not the original 90 ns. -/
theorem time_adjustment_mutates_caller_dataframe :
    prepare_time [90] = .ok { prepped := [100], dataframe := [100], warned := true } ∧
    ((100 : Int) :: []) ≠ ((90 : Int) :: []) := by
  decide

/-- A `datetime` column value as `prepare_datetime` handles it: the
whole-second part (`value.dt.floor("s")`, as seconds) and the microsecond
component `value.dt.microsecond` (0-999999).  Sub-microsecond precision
plays no role in `prepare_datetime`'s flag or arithmetic. -/
structure DtValue where
  sec : Int
  micro : Nat
  deriving DecidableEq

/-- Distance driving `prepare_datetime`'s increment selection.  The source
computes `np.abs(thousandths - increments)` with
`thousandths = microsecond / 1000 % 10` (conversion.py lines 417-422);
multiplied through by 1000 this is `|microsecond % 10000 - 1000 * i|`,
exact in microsecond units (the only float ties,
`microsecond % 10000 ∈ {1500, 5000, 8500}`, are dyadic rationals the
source's float arithmetic represents exactly). -/
def incrementDistance (micro i : Nat) : Nat :=
  (((micro % 10000 : Nat) : Int) - 1000 * i).natAbs

/-- The selected member of `increments = np.array([10, 7, 3, 0])`:
`argmin` returns the FIRST index of minimal distance, so ties resolve
toward the larger increment (conversion.py lines 417-422). -/
def pickIncrement (micro : Nat) : Nat :=
  if incrementDistance micro 10 ≤ incrementDistance micro 7 ∧
      incrementDistance micro 10 ≤ incrementDistance micro 3 ∧
      incrementDistance micro 10 ≤ incrementDistance micro 0 then 10
  else if incrementDistance micro 7 ≤ incrementDistance micro 3 ∧
      incrementDistance micro 7 ≤ incrementDistance micro 0 then 7
  else if incrementDistance micro 3 ≤ incrementDistance micro 0 then 3
  else 0

/-- One value rebuilt by `prepare_datetime` (conversion.py lines 424-429):
`milliseconds = microsecond // 10000 * 10 + selected_increment`, then
`rounded = value.dt.floor("s") + milliseconds` (a selected increment of 10
carries into the next second when the milliseconds reach 1000). -/
def datetimeRound (v : DtValue) : DtValue :=
  { sec := v.sec + (v.micro / 10000 * 10 + pickIncrement v.micro) / 1000,
    micro := (v.micro / 10000 * 10 + pickIncrement v.micro) % 1000 * 1000 }

/-- `prepare_datetime` on one `datetime` column (conversion.py lines
405-440): the column is adjusted, and warned about, exactly when some
value's microsecond count is not a multiple of 3000 (`microsecond % 3000 >
0` on line 409); adjusting replaces every value of the column in BOTH
`prepped` and `dataframe` (lines 431-432).  The final `astype(str)` /
`.str[0:27]` rendering of `prepped` (lines 434-438) is not modelled. -/
def prepare_datetime (col : List DtValue) : PreparedColumn DtValue :=
  if col.any (fun v => v.micro % 3000 > 0) then
    { prepped := col.map datetimeRound, dataframe := col.map datetimeRound,
      warned := true }
  else
    { prepped := col, dataframe := col, warned := false }

/-- Modelled from the claim's words (C6): replace the sub-second
thousandths component with the member of {0, 3, 7} nearest to the original
component by nearest-neighbor selection, keeping the rest of the value. -/
def claimedDatetimeRound (v : DtValue) : DtValue :=
  { sec := v.sec,
    micro := v.micro / 10000 * 10000 +
      (if incrementDistance v.micro 0 ≤ incrementDistance v.micro 3 ∧
          incrementDistance v.micro 0 ≤ incrementDistance v.micro 7 then 0
        else if incrementDistance v.micro 3 ≤ incrementDistance v.micro 7 then 3
        else 7) * 1000 }

/-- A `datetime2` column value as `prepare_datetime2` handles it: the
whole-second part (fields year..second of the Timestamp, as seconds), the
microsecond field `x.microsecond` (0-999999) and the nanosecond field
`x.nanosecond` (0-999).  The rounding lambda of conversion.py lines
457-470 rebuilds the Timestamp from exactly these fields. -/
structure Dt2Value where
  sec : Int
  micro : Nat
  nano : Nat
  deriving DecidableEq

/-- One value rebuilt by `prepare_datetime2`'s rounding lambda
(conversion.py lines 457-470): every field is preserved and the nanosecond
field becomes `round(x.nanosecond / 100) * 100`. -/
def datetime2Round (v : Dt2Value) : Dt2Value :=
  { v with nano := pyRoundDiv100 v.nano * 100 }

/-- `prepare_datetime2` on one `datetime2` column (conversion.py lines
443-480): the column is flagged when any value's nanosecond field is not a
multiple of 100 (line 448); a flagged column is warned about and every
value is replaced by `datetime2Round` in BOTH `dataframe` and `prepped`
(lines 472-473).  The `astype(str)` / `.str[0:27]` rendering of `prepped`
(lines 474-478) is not modelled. -/
def prepare_datetime2 (col : List Dt2Value) : PreparedColumn Dt2Value :=
  if col.any (fun v => v.nano % 100 > 0) then
    { prepped := col.map datetime2Round, dataframe := col.map datetime2Round,
      warned := true }
  else
    { prepped := col, dataframe := col, warned := false }

/-- A `datetimeoffset` column value: the local timestamp's whole-second
part, microsecond and nanosecond fields, and the timezone offset in
minutes (`none` models a value with `tzinfo is None`). -/
structure DtoValue where
  sec : Int
  micro : Nat
  nano : Nat
  offsetMinutes : Option Int
  deriving DecidableEq

/-- The tz-localization of conversion.py lines 491-493: a value with no
tzinfo is assumed to be UTC (`tz_localize("UTC")`, offset +00:00); a value
that already has an offset is kept. -/
def dtoLocalize (v : DtoValue) : DtoValue :=
  { v with offsetMinutes := some (v.offsetMinutes.getD 0) }

/-- One value rebuilt by `prepare_datetimeoffset`'s rounding lambda
(conversion.py lines 507-525): year..microsecond and tzinfo are preserved
and the nanosecond field becomes `round(x.nanosecond / 100) * 100`. -/
def dtoRound (v : DtoValue) : DtoValue :=
  { v with nano := pyRoundDiv100 v.nano * 100 }

/-- `prepare_datetimeoffset` on one `datetimeoffset` column (conversion.py
lines 483-541): the caller's dataframe column is first localized in place
(lines 489-493) and copied to `prepped` (line 495); the column is flagged
when any value's nanosecond field is not a multiple of 100 (lines
496-499); a flagged column is warned about and every value is replaced by
the rounding lambda in BOTH `dataframe` and `prepped` (lines 506-527).
The string rendering of `prepped` with the appended offset (lines 528-539)
is not modelled. -/
def prepare_datetimeoffset (col : List DtoValue) : PreparedColumn DtoValue :=
  if (col.map dtoLocalize).any (fun v => v.nano % 100 > 0) then
    { prepped := (col.map dtoLocalize).map dtoRound,
      dataframe := (col.map dtoLocalize).map dtoRound,
      warned := true }
  else
    { prepped := col.map dtoLocalize, dataframe := col.map dtoLocalize,
      warned := false }

/-- C3 amended: fixed-point decimal rounding is NOT the only adjustment
visible to the caller; the time, datetime, datetime2 and datetimeoffset
adjustments write their rounded values back into the caller's dataframe
too (`dataframe[col] = rounded`, conversion.py lines 394, 431, 472, 526;
for datetimeoffset also the in-place localization of lines 489-493), so
after every adjuster the caller-visible column equals the prepared
(pre-rendering) column, and when a precision-loss warning fired both hold
the rounded values; only the textual wire rendering is confined to the
prepared copy. -/
theorem adjustments_write_back (tcol : List Int) (dcol : List DtValue)
    (d2col : List Dt2Value) (ocol : List DtoValue) (digits : Nat) (ncol : List ℚ)
    (h : ∀ v ∈ tcol, 0 ≤ v ∧ v < nsPerDay) :
    (∃ r, prepare_time tcol = .ok r ∧ r.dataframe = r.prepped ∧
      (r.warned = true →
        r.dataframe = tcol.map (fun v => (prepare_time_round v.toNat : Int)))) ∧
    ((prepare_datetime dcol).dataframe = (prepare_datetime dcol).prepped ∧
      ((prepare_datetime dcol).warned = true →
        (prepare_datetime dcol).dataframe = dcol.map datetimeRound)) ∧
    ((prepare_datetime2 d2col).dataframe = (prepare_datetime2 d2col).prepped ∧
      ((prepare_datetime2 d2col).warned = true →
        (prepare_datetime2 d2col).dataframe = d2col.map datetime2Round)) ∧
    ((prepare_datetimeoffset ocol).dataframe = (prepare_datetimeoffset ocol).prepped ∧
      ((prepare_datetimeoffset ocol).warned = true →
        (prepare_datetimeoffset ocol).dataframe = (ocol.map dtoLocalize).map dtoRound)) ∧
    (prepare_numeric digits ncol).dataframe = (prepare_numeric digits ncol).prepped ∧
    (prepare_numeric digits ncol).dataframe = ncol.map (pyRoundDigits digits) := by
  refine ⟨?_, ?_, ?_, ?_, rfl, rfl⟩
  · have hc : tcol.any (fun v => decide (v ≥ nsPerDay) || decide (v < 0)) = false := by
      by_contra hcon
      rw [Bool.not_eq_false, List.any_eq_true] at hcon
      obtain ⟨v, hv, hvp⟩ := hcon
      obtain ⟨h0, h1⟩ := h v hv
      simp only [Bool.or_eq_true, decide_eq_true_eq, ge_iff_le] at hvp
      rcases hvp with hx | hx
      · exact absurd (lt_of_le_of_lt hx h1) (lt_irrefl _)
      · exact absurd (lt_of_le_of_lt h0 hx) (lt_irrefl _)
    rw [prepare_time, hc, if_neg Bool.false_ne_true]
    split
    · refine ⟨_, rfl, rfl, fun _ => rfl⟩
    · refine ⟨_, rfl, rfl, fun hw => absurd hw (by simp)⟩
  · unfold prepare_datetime
    split
    · exact ⟨rfl, fun _ => rfl⟩
    · exact ⟨rfl, fun hw => absurd hw (by simp)⟩
  · unfold prepare_datetime2
    split
    · exact ⟨rfl, fun _ => rfl⟩
    · exact ⟨rfl, fun hw => absurd hw (by simp)⟩
  · unfold prepare_datetimeoffset
    split
    · exact ⟨rfl, fun _ => rfl⟩
    · exact ⟨rfl, fun hw => absurd hw (by simp)⟩

theorem adjustments_write_back_witness :
    (∃ r, prepare_time [90] = .ok r ∧ r.dataframe = r.prepped ∧
      (r.warned = true →
        r.dataframe = ([90] : List Int).map (fun v => (prepare_time_round v.toNat : Int)))) ∧
    ((prepare_datetime [⟨0, 9500⟩]).dataframe = (prepare_datetime [⟨0, 9500⟩]).prepped ∧
      ((prepare_datetime [⟨0, 9500⟩]).warned = true →
        (prepare_datetime [⟨0, 9500⟩]).dataframe =
          [(⟨0, 9500⟩ : DtValue)].map datetimeRound)) ∧
    ((prepare_datetime2 [⟨0, 0, 90⟩]).dataframe = (prepare_datetime2 [⟨0, 0, 90⟩]).prepped ∧
      ((prepare_datetime2 [⟨0, 0, 90⟩]).warned = true →
        (prepare_datetime2 [⟨0, 0, 90⟩]).dataframe =
          [(⟨0, 0, 90⟩ : Dt2Value)].map datetime2Round)) ∧
    ((prepare_datetimeoffset [⟨0, 0, 90, none⟩]).dataframe =
        (prepare_datetimeoffset [⟨0, 0, 90, none⟩]).prepped ∧
      ((prepare_datetimeoffset [⟨0, 0, 90, none⟩]).warned = true →
        (prepare_datetimeoffset [⟨0, 0, 90, none⟩]).dataframe =
          ([(⟨0, 0, 90, none⟩ : DtoValue)].map dtoLocalize).map dtoRound)) ∧
    (prepare_numeric 2 [(3 : ℚ) / 2]).dataframe = (prepare_numeric 2 [(3 : ℚ) / 2]).prepped ∧
    (prepare_numeric 2 [(3 : ℚ) / 2]).dataframe = [(3 : ℚ) / 2].map (pyRoundDigits 2) :=
  adjustments_write_back [90] [⟨0, 9500⟩] [⟨0, 0, 90⟩] [⟨0, 0, 90, none⟩] 2
    [(3 : ℚ) / 2] (by decide)

/-- C6 counterexample: the claim says every datetime value's thousandths
component is replaced by the member of {0, 3, 7} nearest to it.  For the
value with microsecond count 9500 (thousandths 9.5) the nearest member of
{0, 3, 7} is 7, but the code's increment array also contains 10 and argmin
selects it (distance 0.5), producing .010000 instead of .007; and a value
with microsecond count 9000 (thousandths component 9, not in {0, 3, 7}) is
not replaced at all, because its column never trips the `% 3000 > 0` flag. -/
theorem datetime_thousandths_not_nearest_of_037 :
    prepare_datetime [⟨0, 9500⟩] =
      { prepped := [⟨0, 10000⟩], dataframe := [⟨0, 10000⟩], warned := true } ∧
    claimedDatetimeRound ⟨0, 9500⟩ = ⟨0, 7000⟩ ∧
    (⟨0, 10000⟩ : DtValue) ≠ ⟨0, 7000⟩ ∧
    prepare_datetime [⟨0, 9000⟩] =
      { prepped := [⟨0, 9000⟩], dataframe := [⟨0, 9000⟩], warned := false } := by
  decide

lemma pickIncrement_is_nearest (micro : Nat) :
    pickIncrement micro ∈ [0, 3, 7, 10] ∧
    ∀ j ∈ [0, 3, 7, 10],
      incrementDistance micro (pickIncrement micro) ≤ incrementDistance micro j := by
  constructor
  · unfold pickIncrement
    split_ifs <;> simp
  · intro j hj
    fin_cases hj <;>
      · unfold pickIncrement incrementDistance
        split_ifs <;> omega

/-- C6 amended: the datetime precision adjuster, applied to a column in
which some value's microsecond count is not a multiple of 3000, replaces
every value's thousandths component with the member of {0, 3, 7, 10}
nearest to it (first-minimum nearest-neighbor selection over the code's
increment array [10, 7, 3, 0]; 10 carries into the next ten-milliseconds
digit) and emits one precision-loss warning for the column; a column whose
microsecond counts are all multiples of 3000 is left unchanged without a
warning, even where a thousandths component is 9. -/
theorem datetime_rounds_to_0_3_7_10 (col quiet : List DtValue)
    (hflag : col.any (fun v => v.micro % 3000 > 0) = true)
    (hquiet : ∀ v ∈ quiet, v.micro % 3000 = 0) :
    prepare_datetime col =
      { prepped := col.map datetimeRound, dataframe := col.map datetimeRound,
        warned := true } ∧
    (∀ v ∈ col, pickIncrement v.micro ∈ [0, 3, 7, 10] ∧
      ∀ j ∈ [0, 3, 7, 10],
        incrementDistance v.micro (pickIncrement v.micro) ≤
          incrementDistance v.micro j) ∧
    prepare_datetime quiet = { prepped := quiet, dataframe := quiet, warned := false } := by
  refine ⟨?_, fun v _ => pickIncrement_is_nearest v.micro, ?_⟩
  · rw [prepare_datetime, hflag, if_pos rfl]
  · have hcq : quiet.any (fun v => v.micro % 3000 > 0) = false := by
      by_contra hcon
      rw [Bool.not_eq_false, List.any_eq_true] at hcon
      obtain ⟨v, hv, hvp⟩ := hcon
      have := hquiet v hv
      simp only [decide_eq_true_eq] at hvp
      omega
    rw [prepare_datetime, hcq, if_neg Bool.false_ne_true]

theorem datetime_rounds_to_0_3_7_10_witness :
    prepare_datetime [(⟨0, 9500⟩ : DtValue)] =
      { prepped := [(⟨0, 9500⟩ : DtValue)].map datetimeRound,
        dataframe := [(⟨0, 9500⟩ : DtValue)].map datetimeRound, warned := true } ∧
    (∀ v ∈ [(⟨0, 9500⟩ : DtValue)], pickIncrement v.micro ∈ [0, 3, 7, 10] ∧
      ∀ j ∈ [0, 3, 7, 10],
        incrementDistance v.micro (pickIncrement v.micro) ≤
          incrementDistance v.micro j) ∧
    prepare_datetime [(⟨0, 9000⟩ : DtValue)] =
      { prepped := [(⟨0, 9000⟩ : DtValue)],
        dataframe := [(⟨0, 9000⟩ : DtValue)], warned := false } :=
  datetime_rounds_to_0_3_7_10 [⟨0, 9500⟩] [⟨0, 9000⟩] (by decide) (by decide)

/-- One introspected column as `get_schema` sees it after formatting:
its name and the ODBC `type_name` (renamed `sql_type`).  SQL Server's
column introspection reports identity columns with type names such as
"int identity" or "bigint identity". -/
structure IntroducedColumn where
  column_name : String
  sql_type : String
  deriving DecidableEq

/-- One row of the schema returned by `get_schema` after the registry
join: the column name, its (possibly restored) `sql_type`, and the
registry row the join attached (`none` models the all-NaN rule columns a
failed left join leaves behind). -/
structure SchemaColumn where
  column_name : String
  sql_type : String
  rule : Option Rule
  deriving DecidableEq

inductive SchemaError where
  | UndefinedConversionRule (columns : List String)
  deriving DecidableEq

/-- The registry-join portion of `get_schema` (conversion.py lines
125-131): compute the mask `sql_type == "int identity"`, rewrite those
rows to "int", left-join every row against `conversion_rules.rules` on
`sql_type`, then set the masked rows' `sql_type` back to "int identity". -/
def schemaJoinRestored (cols : List IntroducedColumn) : List SchemaColumn :=
  (((cols.map (fun c =>
        if c.sql_type == "int identity" then { c with sql_type := "int" } else c)).map
      (fun c => ({ column_name := c.column_name, sql_type := c.sql_type,
                   rule := lookupRule c.sql_type } : SchemaColumn))).zip
    (cols.map (fun c => c.sql_type == "int identity"))).map
    (fun p => if p.2 then { p.1 with sql_type := "int identity" } else p.1)

/-- `get_schema`'s conversion-rule check (conversion.py lines 133-141):
after the join, every column whose registry columns are all missing (the
left join found no row) is collected in one pass; if any exist the whole
set is raised as `UndefinedConversionRule`, otherwise the joined schema is
returned. -/
def get_schema_rules (cols : List IntroducedColumn) : Except SchemaError (List SchemaColumn) :=
  if ((schemaJoinRestored cols).filter (fun c => c.rule.isNone)).isEmpty then
    .ok (schemaJoinRestored cols)
  else
    .error (.UndefinedConversionRule
      (((schemaJoinRestored cols).filter (fun c => c.rule.isNone)).map
        (fun c => c.column_name)))

lemma schemaJoinRestored_eq (cols : List IntroducedColumn) :
    schemaJoinRestored cols = cols.map (fun c =>
      ({ column_name := c.column_name, sql_type := c.sql_type,
         rule := lookupRule (if c.sql_type == "int identity" then "int" else c.sql_type) } :
        SchemaColumn)) := by
  induction cols with
  | nil => rfl
  | cons c cs ih =>
    unfold schemaJoinRestored at ih ⊢
    simp only [List.map_cons, List.zip_cons_cons, List.map_map, beq_iff_eq] at ih ⊢
    by_cases hc : c.sql_type = "int identity" <;> simp [hc, ih]

/-- C9 counterexample: the claim covers every identity-flagged integer
type, but `get_schema` normalizes only the literal type name
"int identity" (conversion.py line 126).  A "bigint identity" column is
looked up under "bigint identity", matches no registry row, and fails the
conversion-rule check - the claim's "never fails" is false for it. -/
theorem identity_bigint_fails_conversion_rule :
    get_schema_rules [⟨"pk", "bigint identity"⟩] =
      .error (.UndefinedConversionRule ["pk"]) := by
  decide

/-- C9 amended: only a column whose introspected sql_type is exactly
"int identity" is normalized: its registry lookup is performed under the
base type "int" and the returned schema row carries the restored
designation "int identity", so such a column passes the conversion-rule
check with no duplicate registry entry; identity flags on the other
integer types are not normalized and fail the check. -/
theorem identity_int_normalized (cols : List IntroducedColumn)
    (h : ∀ c ∈ cols, c.sql_type = "int identity" ∨ (lookupRule c.sql_type).isSome = true) :
    get_schema_rules cols = .ok (cols.map (fun c =>
      ({ column_name := c.column_name, sql_type := c.sql_type,
         rule := lookupRule (if c.sql_type == "int identity" then "int" else c.sql_type) } :
        SchemaColumn))) := by
  have hnone : ((schemaJoinRestored cols).filter (fun c => c.rule.isNone)).isEmpty = true := by
    rw [schemaJoinRestored_eq, List.isEmpty_iff, List.filter_eq_nil_iff]
    intro x hx
    rw [List.mem_map] at hx
    obtain ⟨c, hc, rfl⟩ := hx
    rcases h c hc with hid | hsome
    · simp [hid]
      decide
    · by_cases hci : c.sql_type = "int identity"
      · simp [hci]
        decide
      · simp [hci]
        exact Option.isSome_iff_ne_none.mp hsome
  rw [get_schema_rules, if_pos hnone, schemaJoinRestored_eq]

theorem identity_int_normalized_witness :
    get_schema_rules [⟨"pk", "int identity"⟩, ⟨"v", "varchar"⟩] =
      .ok ([(⟨"pk", "int identity"⟩ : IntroducedColumn), ⟨"v", "varchar"⟩].map (fun c =>
        ({ column_name := c.column_name, sql_type := c.sql_type,
           rule := lookupRule (if c.sql_type == "int identity" then "int" else c.sql_type) } :
          SchemaColumn))) :=
  identity_int_normalized [⟨"pk", "int identity"⟩, ⟨"v", "varchar"⟩] (by decide)

inductive CoercionError where
  | SQLInsufficientColumnSize
  deriving DecidableEq

/-- `check_column_size` restricted to one string-dtype (character) column
(conversion.py lines 241-285): for string columns the schema's `max_value`
cell is overwritten with the declared `column_size` (line 246) while the
registry's `min_value` (1 for varchar and nvarchar) is kept; the values
are replaced by their lengths (line 247), aggregated to [min, max] (line
253), and the column is invalid when `min < min_value` or
`max > max_value` (lines 269-271), raising SQLInsufficientColumnSize.
An empty column aggregates to NaN, whose comparisons are false. -/
def check_string_column_size (min_value column_size : Int) (values : List String) :
    Except CoercionError Unit :=
  match values with
  | [] => .ok ()
  | v :: vs =>
    if (vs.map (fun s => (s.length : Int))).foldl min ((v.length : Int)) < min_value ∨
        (vs.map (fun s => (s.length : Int))).foldl max ((v.length : Int)) > column_size then
      .error .SQLInsufficientColumnSize
    else
      .ok ()

lemma foldl_min_le_init (xs : List Int) (a : Int) : xs.foldl min a ≤ a := by
  induction xs generalizing a with
  | nil => simp
  | cons x xs ih =>
    simp only [List.foldl_cons]
    exact le_trans (ih (min a x)) (min_le_left a x)

lemma foldl_min_le_mem (xs : List Int) (a b : Int) (h : b ∈ xs) : xs.foldl min a ≤ b := by
  induction xs generalizing a with
  | nil => cases h
  | cons x xs ih =>
    simp only [List.foldl_cons]
    rcases List.mem_cons.mp h with rfl | hx
    · exact le_trans (foldl_min_le_init xs (min a b)) (min_le_right a b)
    · exact ih _ hx

/-- C10: for varchar/nvarchar columns the size check replaces only the
upper bound with the declared column size and keeps the registry's lower
bound of 1 on value length, so a column containing an empty string always
fails with InsufficientColumnSize - even when its length 0 is within the
declared size (hypothesis `0 ≤ column_size`): empty strings can never be
written. -/
theorem empty_string_fails_size_check (column_size : Int) (values : List String)
    (hmem : "" ∈ values) (hsize : 0 ≤ column_size) :
    ((lookupRule "varchar").map Rule.min_value = some (SqlValue.int 1)) ∧
    ((lookupRule "nvarchar").map Rule.min_value = some (SqlValue.int 1)) ∧
    check_string_column_size 1 column_size values =
      .error .SQLInsufficientColumnSize := by
  refine ⟨by decide, by decide, ?_⟩
  cases values with
  | nil => cases hmem
  | cons v vs =>
    have hlt : (vs.map (fun s => (s.length : Int))).foldl min ((v.length : Int)) < 1 := by
      rcases List.mem_cons.mp hmem with rfl | hv
      · exact lt_of_le_of_lt (foldl_min_le_init _ _) (by decide)
      · refine lt_of_le_of_lt
          (foldl_min_le_mem _ _ 0 ?_) (by norm_num)
        rw [List.mem_map]
        exact ⟨"", hv, rfl⟩
    simp only [check_string_column_size]
    rw [if_pos (Or.inl hlt)]

theorem empty_string_fails_size_check_witness :
    ((lookupRule "varchar").map Rule.min_value = some (SqlValue.int 1)) ∧
    ((lookupRule "nvarchar").map Rule.min_value = some (SqlValue.int 1)) ∧
    check_string_column_size 1 10 ["", "ab"] =
      .error .SQLInsufficientColumnSize :=
  empty_string_fails_size_check 10 ["", "ab"] (by simp) (by norm_num)

/-- The synthetic parameter aliases: `[str(x) for x in range(0, n)]`
(merge.py lines 100-106). -/
def aliasNames (n : Nat) : List String :=
  (List.range n).map (fun x => toString x)

/-- Number of delete-guard aliases: the source sets `alias_conditions = []`
when `delete_requires is None` and `[str(x) for x in range(0,
len(delete_requires))]` otherwise (merge.py lines 103-106); since
`aliasNames 0 = []` both branches are `aliasNames` of this count. -/
def delete_requires_count : Option (List String) → Nat
  | none => 0
  | some d => d.length

/-- The text of the dynamic-SQL batch built by `merge.merge` (merge.py
lines 69-180), assembled exactly as in the source: the fixed template of
lines 69-88 with the `{declare}`, `{match_syntax}`, `{update_syntax}`,
`{insert_syntax}`, `{insert_values}`, `{delete_syntax}`, `{parameters}`
and `{values}` pieces substituted.  Every piece is generated from the
alias lists - that is, from the LENGTHS of the column lists and the two
flags - while the caller-supplied identifier strings go only into the
bound-parameter list (`merge_args`); QUOTENAME escaping of the aliases'
contents happens inside the engine at execution time. -/
def merge_statement (match_columns update_columns insert_columns : List String)
    (delete_requires : Option (List String))
    (upsert include_metadata_timestamps : Bool) : String :=
  let alias_match := aliasNames match_columns.length
  let alias_update := aliasNames update_columns.length
  let alias_insert := aliasNames insert_columns.length
  let alias_conditions := aliasNames (delete_requires_count delete_requires)
  let declare := String.intercalate "\n"
    ((alias_match.map (fun x => "DECLARE @Match_" ++ x ++ " SYSNAME = ?;")) ++
      (alias_update.map (fun x => "DECLARE @Update_" ++ x ++ " SYSNAME = ?;")) ++
      (alias_insert.map (fun x => "DECLARE @Insert_" ++ x ++ " SYSNAME = ?;")) ++
      (alias_conditions.map (fun x => "DECLARE @Subset_" ++ x ++ " SYSNAME = ?;")))
  let matchSyntax := String.intercalate "+' AND '+"
    (alias_match.map (fun x =>
      "'_target.'+" ++ "QUOTENAME(@Match_" ++ x ++ ")" ++ "+'=_source.'+" ++
        "QUOTENAME(@Match_" ++ x ++ ")"))
  let updateSyntaxBase := String.intercalate "+','+"
    (alias_update.map (fun x =>
      "QUOTENAME(@Update_" ++ x ++ ")" ++ "+'=_source.'+" ++
        "QUOTENAME(@Update_" ++ x ++ ")"))
  let updateSyntax :=
    if include_metadata_timestamps then
      "+'_time_update=GETDATE(), '+" ++ updateSyntaxBase
    else updateSyntaxBase
  let insertSyntaxBase := String.intercalate "+','+"
    (alias_insert.map (fun x => "QUOTENAME(@Insert_" ++ x ++ ")"))
  let insertValuesBase := String.intercalate "+','+"
    (alias_insert.map (fun x => "'_source.'+QUOTENAME(@Insert_" ++ x ++ ")"))
  let insertSyntax :=
    if include_metadata_timestamps then "+'_time_insert, '+" ++ insertSyntaxBase
    else insertSyntaxBase
  let insertValues :=
    if include_metadata_timestamps then "+'GETDATE(), '+" ++ insertValuesBase
    else insertValuesBase
  let deleteSyntax :=
    if !upsert then
      "' WHEN NOT MATCHED BY SOURCE '+" ++
        (String.intercalate " + "
          (alias_conditions.map (fun x =>
            "'AND _target.'+QUOTENAME(@Subset_" ++ x ++
              ")+' IN (SELECT '+QUOTENAME(@Subset_" ++ x ++
              ")+' FROM '+QUOTENAME(@TableTemp)+')'"))) ++
        "+' THEN DELETE'"
    else "''"
  let parameters := String.intercalate ", "
    ((alias_match.map (fun x => "@Match_" ++ x ++ " SYSNAME")) ++
      (alias_update.map (fun x => "@Update_" ++ x ++ " SYSNAME")) ++
      (alias_insert.map (fun x => "@Insert_" ++ x ++ " SYSNAME")) ++
      (alias_conditions.map (fun x => "@Subset_" ++ x ++ " SYSNAME")))
  let vals := String.intercalate ", "
    ((alias_match.map (fun x => "@Match_" ++ x ++ "=@Match_" ++ x)) ++
      (alias_update.map (fun x => "@Update_" ++ x ++ "=@Update_" ++ x)) ++
      (alias_insert.map (fun x => "@Insert_" ++ x ++ "=@Insert_" ++ x)) ++
      (alias_conditions.map (fun x => "@Subset_" ++ x ++ "=@Subset_" ++ x)))
  "\n            DECLARE @SQLStatement AS NVARCHAR(MAX);\n            DECLARE @TableName SYSNAME = ?;\n            DECLARE @TableTemp SYSNAME = ?;\n            " ++
    declare ++
    "\n\n            SET @SQLStatement =\n            N' MERGE '+QUOTENAME(@TableName)+' AS _target '\n            +' USING '+QUOTENAME(@TableTemp)+' AS _source '\n            +' ON ('+" ++
    matchSyntax ++
    "+') '\n            +' WHEN MATCHED THEN UPDATE SET '+" ++
    updateSyntax ++
    "\n            +' WHEN NOT MATCHED THEN INSERT ('+" ++
    insertSyntax ++
    "+')'\n            +' VALUES ('+" ++
    insertValues ++
    "+')'\n            +" ++
    deleteSyntax ++
    "+';'\n\n            EXEC sp_executesql\n                @SQLStatement,\n                N'@TableName SYSNAME, @TableTemp SYSNAME, " ++
    parameters ++
    "',\n                @TableName=@TableName, @TableTemp=@TableTemp, " ++
    vals ++
    ";\n        "

/-- The positional arguments bound to the statement (merge.py lines
183-197): the target and staging table names followed by the
match/update/insert column names, plus the delete-guard column names when
`delete_requires` was given.  These, not the statement text, carry every
caller-supplied identifier. -/
def merge_args (table_name temp_name : String)
    (match_columns update_columns insert_columns : List String)
    (delete_requires : Option (List String)) : List String :=
  match delete_requires with
  | none => [table_name, temp_name] ++ match_columns ++ update_columns ++ insert_columns
  | some d =>
      [table_name, temp_name] ++ match_columns ++ update_columns ++ insert_columns ++ d

inductive MergeError where
  | configError
  deriving DecidableEq

/-- `merge.merge`'s control flow around the builder (merge.py lines
49-200): the input check `delete_requires is not None and upsert` raises a
ValueError FIRST - before the cursor is created (line 57), before
`_source_table` stages any data, and before any statement text exists; on
the happy path the call produces the single statement and its bound
arguments for `cursor.execute`.  An error result carries no statement, so
the connection receives nothing. -/
def merge_call (table_name temp_name : String)
    (match_columns update_columns insert_columns : List String)
    (delete_requires : Option (List String))
    (upsert include_metadata_timestamps : Bool) :
    Except MergeError (String × List String) :=
  if delete_requires.isSome && upsert then .error .configError
  else
    .ok (merge_statement match_columns update_columns insert_columns delete_requires
          upsert include_metadata_timestamps,
        merge_args table_name temp_name match_columns update_columns insert_columns
          delete_requires)

/-- C1: the emitted merge statement contains no caller-supplied table or
column name - it is assembled from fixed template text and the synthetic
aliases @TableName, @TableTemp, @Match_i, @Update_i, @Insert_i, @Subset_i,
the identifiers travelling only as bound parameter values.  Hence two
calls whose match/update/insert/delete-guard column lists have equal
lengths (counting an absent guard list as length 0), with the same upsert
and metadata-timestamp settings, emit identical statement text whatever
the identifier strings are. -/
theorem merge_statement_identifier_free
    (m₁ m₂ u₁ u₂ i₁ i₂ : List String) (d₁ d₂ : Option (List String))
    (upsert ts : Bool)
    (hm : m₁.length = m₂.length) (hu : u₁.length = u₂.length)
    (hi : i₁.length = i₂.length)
    (hd : delete_requires_count d₁ = delete_requires_count d₂) :
    merge_statement m₁ u₁ i₁ d₁ upsert ts = merge_statement m₂ u₂ i₂ d₂ upsert ts := by
  unfold merge_statement
  rw [hm, hu, hi, hd]

theorem merge_statement_identifier_free_witness :
    merge_statement ["UserName"] ["ColumnA"] ["UserName", "ColumnA"] none false true =
      merge_statement ["Id]; DROP TABLE [T"] ["B"] ["X", "Y"] (some []) false true :=
  merge_statement_identifier_free ["UserName"] ["Id]; DROP TABLE [T"]
    ["ColumnA"] ["B"] ["UserName", "ColumnA"] ["X", "Y"] none (some [])
    false true rfl rfl rfl rfl

/-- C5: for every table name, column set and non-empty delete_requires
list, calling merge with upsert=True yields the configuration error
(merge.py lines 50-51) before any statement is built or executed: the
result carries no statement for the connection, so the target table is
untouched.  (The source's check fires for ANY non-None `delete_requires`,
so in particular for non-empty ones.) -/
theorem merge_upsert_delete_requires_config_error
    (table_name temp_name : String) (m u i ds : List String) (ts : Bool)
    (hne : ds ≠ []) :
    merge_call table_name temp_name m u i (some ds) true ts = .error .configError := by
  rfl

theorem merge_upsert_delete_requires_config_error_witness :
    merge_call "SomeTable" "#_SomeTable" ["ColumnA"] [] ["ColumnA", "ColumnC"]
      (some ["ColumnC"]) true false = .error .configError :=
  merge_upsert_delete_requires_config_error "SomeTable" "#_SomeTable"
    ["ColumnA"] [] ["ColumnA", "ColumnC"] ["ColumnC"] false (by simp)
